import Mathlib

/-!
Shallow embedding of the aptos-tapp-swap-bot repository
(src/swap_executor.ts, src/utils.ts, src/notification.ts).

Conventions of the embedding:
* JavaScript numbers that hold token amounts are non-negative integers in
  the source (raw on-chain units); they are modelled as `Nat`.
* The floating-point expressions of the source (`raw / 10 ** DECIMALS`,
  `estimatedAmountOut * (1 - slippage)`) are modelled exactly over `ℚ`.
* Network calls are modelled by passing their outcome in as data:
  a call that can throw is an `Except Unit α` argument.
* A JavaScript environment variable is an `Option String`; the source
  tests it with `!x`, which is true exactly when the variable is absent
  or the empty string (`jsTruthy`).
-/

namespace SwapBot

/-- JavaScript truthiness of an environment variable (string or undefined):
`!x` in the source is `jsTruthy x = false`. -/
def jsTruthy (s : Option String) : Bool :=
  match s with
  | none => false
  | some v => v ≠ ""

/-! ### Constants of src/swap_executor.ts -/

/-- `const TOKEN_INDEX_APT = parseInt(process.env.TOKEN_IN_INDEX_APT || '0', 10)` (default). -/
def TOKEN_INDEX_APT : Nat := 0

/-- `const TOKEN_INDEX_KAPT = parseInt(process.env.TOKEN_IN_INDEX_KAPT || '1', 10)` (default). -/
def TOKEN_INDEX_KAPT : Nat := 1

/-- `const APT_COIN_TYPE = "0x1::aptos_coin::AptosCoin"`. -/
def APT_COIN_TYPE : String := "0x1::aptos_coin::AptosCoin"

/-- `const KAPT_COIN_TYPE = "0x821c94e69bc7ca058c913b7b5e6b0a5c9fd1523d58723a966fb8c1f5ea888105"`. -/
def KAPT_COIN_TYPE : String :=
  "0x821c94e69bc7ca058c913b7b5e6b0a5c9fd1523d58723a966fb8c1f5ea888105"

/-- `const DECIMALS = 8` (inside `main`). -/
def DECIMALS : Nat := 8

/-- `const APT_MIN_THRESHOLD = 2` (inside `main`). -/
def APT_MIN_THRESHOLD : Nat := 2

/-- `const SLIPPAGE = 0.005` (inside `main`); exact as a rational. -/
def SLIPPAGE : ℚ := 0.005

/-- `const LOOP_INTERVAL_SECONDS = 5` (inside `main`). -/
def LOOP_INTERVAL_SECONDS : Nat := 5

/-- `const KEEP_APT_AMOUNT_FOR_SWAP = 5` (inside `main`). -/
def KEEP_APT_AMOUNT_FOR_SWAP : Nat := 5

/-- `const APT_MIN_UNIT_TO_KEEP = KEEP_APT_AMOUNT_FOR_SWAP * (10 ** DECIMALS)`. -/
def APT_MIN_UNIT_TO_KEEP : Nat := KEEP_APT_AMOUNT_FOR_SWAP * 10 ^ DECIMALS

/-- The test `currentAptBalanceDecimal < APT_MIN_THRESHOLD` of
`swap_executor.ts:175`, with `currentAptBalanceDecimal =
currentAptBalanceRawUnits / (10 ** DECIMALS)` (line 172) carried out
exactly over `ℚ`. -/
def aptBelowThreshold (currentAptBalanceRawUnits : Nat) : Bool :=
  decide ((currentAptBalanceRawUnits : ℚ) / 10 ^ DECIMALS < (APT_MIN_THRESHOLD : ℚ))

/-! ### src/utils.ts -/

/-- One entry of the array returned by `aptos.getAccountCoinsData`. -/
structure CoinData where
  asset_type : String
  amount : Nat
deriving DecidableEq

/-- `getCoinBalanceInUnits` of src/utils.ts.  The network call
`aptos.getAccountCoinsData` sits inside the function's `try`; its outcome
(the coin array, or a thrown error) is the `coinsData` argument.  The
`catch` returns 0, a missing entry returns 0, a found entry returns its
amount. -/
def getCoinBalanceInUnits (coinsData : Except Unit (List CoinData))
    (coinType : String) : Nat :=
  match coinsData with
  | .error _ => 0
  | .ok coins =>
    match coins.find? (fun coin => coin.asset_type = coinType) with
    | some targetCoin => targetCoin.amount
    | none => 0

/-! ### executeTappSwap (src/swap_executor.ts lines 43-114) -/

/-- The argument record handed to `tappSDK.Swap.swapStableTransactionPayload`
at swap_executor.ts:77-83. -/
structure SwapPayload where
  poolId : String
  tokenIn : Nat
  tokenOut : Nat
  amountIn : Nat
  minAmountOut : Int
deriving DecidableEq

/-- Result of one `executeTappSwap` call followed by `waitForTransaction`:
`payload` is the payload built (present exactly when the quote succeeded),
`result` is `ok` when quote, build, sign, submit and confirmation all
succeeded and `error` when any of them threw. -/
structure SwapCall where
  payload : Option SwapPayload
  result : Except Unit Unit

/-- `executeTappSwap` of src/swap_executor.ts (merged with the caller's
`waitForTransaction` at line 236, which is in the same `try`).  The quote
call `tappSDK.Swap.getEstSwapAmount` is the `quote` argument (`error`
covers both a thrown call and `!quote || quote.error`); `txOk` is whether
build/sign/submit/confirmation succeed.  `minAmountOut =
Math.floor(estimatedAmountOut * (1 - slippage))` is exact over `ℚ`. -/
def executeTappSwap (TAPP_POOL_ID : String) (amountIn : Nat) (slippage : ℚ)
    (fromTokenIn : Bool) (quote : Except Unit Nat) (txOk : Bool) : SwapCall :=
  match quote with
  | .error _ => { payload := none, result := .error () }
  | .ok estimatedAmountOut =>
    let minAmountOut : Int := ⌊(estimatedAmountOut : ℚ) * (1 - slippage)⌋
    let tappPayload : SwapPayload :=
      { poolId := TAPP_POOL_ID
        tokenIn := if fromTokenIn then TOKEN_INDEX_APT else TOKEN_INDEX_KAPT
        tokenOut := if fromTokenIn then TOKEN_INDEX_KAPT else TOKEN_INDEX_APT
        amountIn := amountIn
        minAmountOut := minAmountOut }
    { payload := some tappPayload
      result := if txOk then .ok () else .error () }

/-! ### One iteration of the while loop of main (swap_executor.ts lines 162-256) -/

/-- Outcome classification of one loop iteration: `success` increments
`successfulSwaps`, `failure` is the `catch` branch incrementing
`failedSwaps`, `skipped` is the `amountIn <= 0` branch (line 220). -/
inductive SwapOutcome
  | success
  | failure
  | skipped
deriving DecidableEq

/-- The outcomes of the external calls one loop iteration can make:
`aptQuery` is `aptos.getAccountAPTAmount` (line 169, may throw),
`kaptCoins` feeds `getCoinBalanceInUnits` (line 197), `quote` and `txOk`
feed `executeTappSwap`. -/
structure IterInput where
  aptQuery : Except Unit Nat
  kaptCoins : Except Unit (List CoinData)
  quote : Except Unit Nat
  txOk : Bool

/-- What one loop iteration did: its outcome, the direction stored for the
next iteration (`isAptToKapt` after the iteration), the direction the
iteration resolved and used (`none` when the APT query threw before
resolution), the computed `amountIn`, the payload built (if any), whether
`executeTappSwap` was invoked at all, and whether the iteration reached
the `sleep` at line 255. -/
structure IterResult where
  outcome : SwapOutcome
  nextDir : Bool
  usedDir : Option Bool
  amountIn : Option Nat
  payload : Option SwapPayload
  swapCalled : Bool
  slept : Bool
deriving DecidableEq

/-- One iteration of the `while` loop in `main` (swap_executor.ts
lines 165-255), for a given stored direction `isAptToKapt`.
Structure mirrors the source:
1. the APT balance query (a throw here lands in the `catch`: failure);
2. direction adjustment: below the threshold forces `isAptToKapt = false`
   by assignment (line 176);
3. balance and `amountIn` computation (`Math.max(0, bal - keep)` is `Nat`
   subtraction);
4. the `amountIn <= 0` skip branch does `continue`, bypassing the sleep;
5. otherwise `executeTappSwap` + `waitForTransaction`, success or catch;
   both paths fall through to the sleep. -/
def loopIteration (TAPP_POOL_ID : String) (isAptToKapt : Bool)
    (inp : IterInput) : IterResult :=
  match inp.aptQuery with
  | .error _ =>
    { outcome := .failure, nextDir := !isAptToKapt, usedDir := none
      amountIn := none, payload := none, swapCalled := false, slept := true }
  | .ok currentAptBalanceRawUnits =>
    let d : Bool :=
      if aptBelowThreshold currentAptBalanceRawUnits then false else isAptToKapt
    let currentBalanceInUnits : Nat :=
      if d then currentAptBalanceRawUnits
      else getCoinBalanceInUnits inp.kaptCoins KAPT_COIN_TYPE
    let amountIn : Nat :=
      if d then currentBalanceInUnits - APT_MIN_UNIT_TO_KEEP
      else currentBalanceInUnits
    if amountIn ≤ 0 then
      { outcome := .skipped, nextDir := !d, usedDir := some d
        amountIn := some amountIn, payload := none, swapCalled := false
        slept := false }
    else
      let call := executeTappSwap TAPP_POOL_ID amountIn SLIPPAGE d inp.quote inp.txOk
      match call.result with
      | .ok _ =>
        { outcome := .success, nextDir := !d, usedDir := some d
          amountIn := some amountIn, payload := call.payload, swapCalled := true
          slept := true }
      | .error _ =>
        { outcome := .failure, nextDir := !d, usedDir := some d
          amountIn := some amountIn, payload := call.payload, swapCalled := true
          slept := true }

/-! ### Run state and the while loop of main -/

/-- The mutable loop state of `main` (swap_executor.ts lines 154-157):
`successfulSwaps`, `failedSwaps`, `totalAttempts`, `isAptToKapt`.
`skippedSwaps` is a ghost counter with no source variable: it counts the
iterations that took the `amountIn <= 0` branch, so that the accounting
invariant can be stated. -/
structure RunState where
  totalAttempts : Nat
  successfulSwaps : Nat
  failedSwaps : Nat
  skippedSwaps : Nat
  isAptToKapt : Bool
deriving DecidableEq

/-- Initial state at lines 154-157: all counters 0, first direction
APT to kAPT. -/
def initState : RunState :=
  { totalAttempts := 0, successfulSwaps := 0, failedSwaps := 0
    skippedSwaps := 0, isAptToKapt := true }

/-- One pass through the loop body: `totalAttempts++` at line 163, then
the iteration, then the counter touched by the branch taken and the new
stored direction.  `env i` supplies the external-call outcomes of the
iteration whose pre-increment attempt count is `i`. -/
def stepRun (TAPP_POOL_ID : String) (env : Nat → IterInput)
    (s : RunState) : RunState :=
  let r := loopIteration TAPP_POOL_ID s.isAptToKapt (env s.totalAttempts)
  { totalAttempts := s.totalAttempts + 1
    successfulSwaps := s.successfulSwaps + (if r.outcome = .success then 1 else 0)
    failedSwaps := s.failedSwaps + (if r.outcome = .failure then 1 else 0)
    skippedSwaps := s.skippedSwaps + (if r.outcome = .skipped then 1 else 0)
    isAptToKapt := r.nextDir }

/-- `while (totalAttempts < SWAP_BATCH_SIZE) { ... }` of
swap_executor.ts:162. -/
def runLoop (TAPP_POOL_ID : String) (env : Nat → IterInput)
    (SWAP_BATCH_SIZE : Nat) (s : RunState) : RunState :=
  if s.totalAttempts < SWAP_BATCH_SIZE then
    runLoop TAPP_POOL_ID env SWAP_BATCH_SIZE (stepRun TAPP_POOL_ID env s)
  else s
termination_by SWAP_BATCH_SIZE - s.totalAttempts
decreasing_by simp [stepRun]; omega

/-- Observable outcome of a whole `main` invocation
(swap_executor.ts lines 119-267). -/
structure MainResult where
  configErrorNotified : Bool
  consoleErrored : Bool
  loopStarted : Bool
  exitCode : Nat
  finalState : Option RunState
deriving DecidableEq

/-- `main` of src/swap_executor.ts.  The startup check at lines 121-125:
`if (!PRIVATE_KEY || !TAPP_POOL_ID)` sends a notification, prints to the
console and does a plain `return` — no `process.exit` and no rethrow
anywhere in `main`, so the Node process finishes with exit code 0 on both
branches.  Otherwise the loop runs to completion from `initState` and the
summary is sent. -/
def main (PRIVATE_KEY TAPP_POOL_ID : Option String) (SWAP_BATCH_SIZE : Nat)
    (env : Nat → IterInput) : MainResult :=
  if !jsTruthy PRIVATE_KEY || !jsTruthy TAPP_POOL_ID then
    { configErrorNotified := true, consoleErrored := true
      loopStarted := false, exitCode := 0, finalState := none }
  else
    { configErrorNotified := false, consoleErrored := false
      loopStarted := true, exitCode := 0
      finalState := some (runLoop (TAPP_POOL_ID.getD "") env SWAP_BATCH_SIZE initState) }

/-! ### src/notification.ts -/

/-- The environment variables read at the top of src/notification.ts.
`NOTIFICATION_SERVICE_ID` is `parseInt(process.env.NOTIFICATION_SERVICE ||
'0', 10)`: an integer, or a junk value when the variable is not numeric
(`NaN` compares unequal to 0, 1, 2 and 3 exactly as any integer outside
that set does, so `Int` covers every reachable behaviour). -/
structure NotifyEnv where
  NOTIFICATION_SERVICE_ID : Int
  DISCORD_WEBHOOK_URL : Option String
  TELEGRAM_BOT_TOKEN : Option String
  TELEGRAM_CHAT_ID : Option String
  LINE_NOTIFY_TOKEN : Option String

/-- `sendDiscordNotification`: throws when the webhook URL is falsy,
otherwise performs the `fetch` (whose failure, `fetchFails`, rejects). -/
def sendDiscordNotification (env : NotifyEnv) (fetchFails : Bool) :
    Except String Unit :=
  if !jsTruthy env.DISCORD_WEBHOOK_URL then
    .error "Discord Webhook URL is not set"
  else if fetchFails then .error "fetch rejected" else .ok ()

/-- `sendTelegramNotification`: throws when the bot token or chat id is
falsy, otherwise performs the `fetch`. -/
def sendTelegramNotification (env : NotifyEnv) (fetchFails : Bool) :
    Except String Unit :=
  if !jsTruthy env.TELEGRAM_BOT_TOKEN || !jsTruthy env.TELEGRAM_CHAT_ID then
    .error "Telegram settings are missing"
  else if fetchFails then .error "fetch rejected" else .ok ()

/-- `sendLineNotification`: throws when the token is falsy, otherwise
performs the `fetch`. -/
def sendLineNotification (env : NotifyEnv) (fetchFails : Bool) :
    Except String Unit :=
  if !jsTruthy env.LINE_NOTIFY_TOKEN then
    .error "LINE Notify token is not set"
  else if fetchFails then .error "fetch rejected" else .ok ()

/-- How a `sendNotification` call ended, as seen by the log. -/
inductive NotifyResult
  | skippedNoService
  | skippedNoWebhook
  | delivered
  | warnedUnsupported
  | caughtAndLogged (e : String)

/-- `sendNotification` of src/notification.ts.  The return type is
`Except String NotifyResult` so that a thrown/rejected escape to the
caller would be representable as `.error`; the claim is that it never
happens.  Structure mirrors the source: the `ID === 0` early return, the
pre-check `switch` (only case 1 has an active guard), then the dispatch
`switch` inside `try`, whose `catch` logs and returns normally. -/
def sendNotification (env : NotifyEnv) (fetchFails : Bool) :
    Except String NotifyResult :=
  if env.NOTIFICATION_SERVICE_ID = 0 then .ok .skippedNoService
  else if env.NOTIFICATION_SERVICE_ID = 1 && !jsTruthy env.DISCORD_WEBHOOK_URL then
    .ok .skippedNoWebhook
  else
    let attempt : Except String NotifyResult :=
      if env.NOTIFICATION_SERVICE_ID = 1 then
        (sendDiscordNotification env fetchFails).map (fun _ => .delivered)
      else if env.NOTIFICATION_SERVICE_ID = 2 then
        (sendTelegramNotification env fetchFails).map (fun _ => .delivered)
      else if env.NOTIFICATION_SERVICE_ID = 3 then
        (sendLineNotification env fetchFails).map (fun _ => .delivered)
      else .ok .warnedUnsupported
    match attempt with
    | .ok r => .ok r
    | .error e => .ok (.caughtAndLogged e)

/-! ### Shared helper lemmas and concrete scenario inputs -/

lemma aptBelowThreshold_zero : aptBelowThreshold 0 = true := by
  simp [aptBelowThreshold, DECIMALS, APT_MIN_THRESHOLD]

lemma aptBelowThreshold_5e8 : aptBelowThreshold 500000000 = false := by
  simp [aptBelowThreshold, DECIMALS, APT_MIN_THRESHOLD]
  norm_num

lemma aptBelowThreshold_10e8 : aptBelowThreshold 1000000000 = false := by
  simp [aptBelowThreshold, DECIMALS, APT_MIN_THRESHOLD]
  norm_num

lemma stepRun_totalAttempts (p : String) (env : Nat → IterInput) (s : RunState) :
    (stepRun p env s).totalAttempts = s.totalAttempts + 1 := rfl

lemma stepRun_counterSum (p : String) (env : Nat → IterInput) (s : RunState) :
    (stepRun p env s).successfulSwaps + (stepRun p env s).failedSwaps +
      (stepRun p env s).skippedSwaps
      = s.successfulSwaps + s.failedSwaps + s.skippedSwaps + 1 := by
  cases h : (loopIteration p s.isAptToKapt (env s.totalAttempts)).outcome <;>
    simp [stepRun, h] <;> omega

lemma runLoop_accounting_aux (p : String) (env : Nat → IterInput) (N : Nat) :
    ∀ (k : Nat) (s : RunState), N - s.totalAttempts ≤ k → s.totalAttempts ≤ N →
      (runLoop p env N s).totalAttempts = N ∧
      (runLoop p env N s).successfulSwaps + (runLoop p env N s).failedSwaps +
        (runLoop p env N s).skippedSwaps + s.totalAttempts
        = s.successfulSwaps + s.failedSwaps + s.skippedSwaps + N := by
  intro k
  induction k with
  | zero =>
    intro s h1 h2
    rw [runLoop]
    have ht : s.totalAttempts = N := by omega
    simp [ht]
  | succ k ih =>
    intro s h1 h2
    rw [runLoop]
    by_cases hlt : s.totalAttempts < N
    · simp only [hlt, if_true]
      have hstep := stepRun_totalAttempts p env s
      have hsum := stepRun_counterSum p env s
      have h3 : N - (stepRun p env s).totalAttempts ≤ k := by omega
      have h4 : (stepRun p env s).totalAttempts ≤ N := by omega
      obtain ⟨e1, e2⟩ := ih (stepRun p env s) h3 h4
      refine ⟨e1, ?_⟩
      rw [hstep] at e2
      omega
    · have ht : s.totalAttempts = N := by omega
      simp [hlt, ht]

/-- For an iteration whose APT query returns, the direction the iteration
resolves and uses is the stored one unless the threshold override replaces
it by `false`. -/
lemma loopIteration_usedDir (p : String) (dir : Bool) (inp : IterInput)
    (a : Nat) (h : inp.aptQuery = .ok a) :
    (loopIteration p dir inp).usedDir =
      some (if aptBelowThreshold a then false else dir) := by
  obtain ⟨aq, kc, q, tx⟩ := inp
  simp only at h
  subst h
  simp only [loopIteration]
  repeat' split
  all_goals simp_all

/-- After any iteration, the stored direction is the complement of the
resolved direction when one was resolved, and the complement of the
inherited direction when the APT query threw first. -/
lemma loopIteration_flip (p : String) (dir : Bool) (inp : IterInput) :
    (∀ d, (loopIteration p dir inp).usedDir = some d →
      (loopIteration p dir inp).nextDir = !d) ∧
    ((loopIteration p dir inp).usedDir = none →
      (loopIteration p dir inp).nextDir = !dir) := by
  obtain ⟨aq, kc, q, tx⟩ := inp
  cases aq with
  | error e => simp [loopIteration]
  | ok a =>
    constructor <;>
      · simp only [loopIteration]
        repeat' split
        all_goals simp_all

/-- Scenario: stored direction AtoB, APT balance 0 (below the threshold,
so the override forces BtoA), kAPT balance 100, quote and submission
succeed. -/
def inputForcedBtoA : IterInput :=
  { aptQuery := .ok 0, kaptCoins := .ok [⟨KAPT_COIN_TYPE, 100⟩]
    quote := .ok 50, txOk := true }

/-- Scenario of the spec: direction AtoB and APT balance exactly equal to
the 5-APT reserve, so `amountIn = 0`. -/
def inputSkipAtReserve : IterInput :=
  { aptQuery := .ok 500000000, kaptCoins := .ok [], quote := .ok 1, txOk := true }

/-- Scenario: the APT balance query itself throws. -/
def inputAptQueryFails : IterInput :=
  { aptQuery := .error (), kaptCoins := .ok [], quote := .ok 1, txOk := true }

/-- Scenario: APT balance 0 forces BtoA and the kAPT coin-data query
throws. -/
def inputKaptReadFails : IterInput :=
  { aptQuery := .ok 0, kaptCoins := .error (), quote := .ok 1, txOk := true }

/-- Scenario: APT balance 0 forces BtoA and the account holds no record
of the kAPT coin type. -/
def inputKaptNoEntry : IterInput :=
  { aptQuery := .ok 0, kaptCoins := .ok [⟨APT_COIN_TYPE, 7⟩], quote := .ok 1
    txOk := true }

/-- Scenario: APT balance 0 forces BtoA and the kAPT record exists with a
genuinely zero balance. -/
def inputKaptZeroEntry : IterInput :=
  { aptQuery := .ok 0, kaptCoins := .ok [⟨KAPT_COIN_TYPE, 0⟩], quote := .ok 1
    txOk := true }

/-- Scenario: APT balance 10 APT, direction AtoB, quoted output
1,000,000 units. -/
def inputQuoteMillion : IterInput :=
  { aptQuery := .ok 1000000000, kaptCoins := .ok [], quote := .ok 1000000
    txOk := true }

/-! ### Claim theorems -/

/-- Claim C1: each pass through the loop body increments `totalAttempts`
by one and exactly one of the success, failure and skip counters by one,
so `totalAttempts = successfulSwaps + failedSwaps + skippedSwaps` holds
after every iteration; and, for every target count `N ≥ 0`, the completed
run from the initial state has `totalAttempts = N` and
`N = successfulSwaps + failedSwaps + skippedSwaps`. -/
theorem swapLoop_attempt_accounting (p : String) (env : Nat → IterInput)
    (N : Nat) (s : RunState) :
    ((stepRun p env s).totalAttempts = s.totalAttempts + 1 ∧
      (stepRun p env s).successfulSwaps + (stepRun p env s).failedSwaps +
        (stepRun p env s).skippedSwaps
        = s.successfulSwaps + s.failedSwaps + s.skippedSwaps + 1) ∧
    (runLoop p env N initState).totalAttempts = N ∧
    (runLoop p env N initState).totalAttempts =
      (runLoop p env N initState).successfulSwaps +
        (runLoop p env N initState).failedSwaps +
        (runLoop p env N initState).skippedSwaps := by
  refine ⟨⟨stepRun_totalAttempts p env s, stepRun_counterSum p env s⟩, ?_⟩
  obtain ⟨h1, h2⟩ := runLoop_accounting_aux p env N N initState
    (by simp [initState]) (by simp [initState])
  have e0 : initState.totalAttempts = 0 := rfl
  have e1 : initState.successfulSwaps = 0 := rfl
  have e2 : initState.failedSwaps = 0 := rfl
  have e3 : initState.skippedSwaps = 0 := rfl
  rw [e0, e1, e2, e3] at h2
  exact ⟨h1, by omega⟩

/-- Claim C7: after every attempt whose direction was resolved (success,
failure or skip), the stored direction is the complement of the direction
actually used; when the attempt failed before direction resolution (the
APT query threw), the stored direction is the complement of the inherited
one; and the direction the next attempt resolves is exactly the stored
value unless the threshold override replaces it by BtoA. -/
theorem direction_flip_after_every_attempt (p : String) (dir : Bool)
    (inp : IterInput) :
    (∀ d, (loopIteration p dir inp).usedDir = some d →
      (loopIteration p dir inp).nextDir = !d) ∧
    ((loopIteration p dir inp).usedDir = none →
      (loopIteration p dir inp).nextDir = !dir) ∧
    (∀ (inp2 : IterInput) (a2 : Nat), inp2.aptQuery = .ok a2 →
      (loopIteration p (loopIteration p dir inp).nextDir inp2).usedDir =
        some (if aptBelowThreshold a2 then false
              else (loopIteration p dir inp).nextDir)) :=
  ⟨(loopIteration_flip p dir inp).1, (loopIteration_flip p dir inp).2,
    fun inp2 a2 h2 => loopIteration_usedDir p _ inp2 a2 h2⟩

/-- Claim C7 witness: with stored direction AtoB and APT balance 0, the
override resolves BtoA, the attempt succeeds, and the stored direction
afterwards is AtoB, the complement of the used direction. -/
theorem direction_flip_after_every_attempt_witness :
    (loopIteration "pool" true inputForcedBtoA).usedDir = some false ∧
    (loopIteration "pool" true inputForcedBtoA).nextDir = !false := by
  have hu : (loopIteration "pool" true inputForcedBtoA).usedDir = some false := by
    have := loopIteration_usedDir "pool" true inputForcedBtoA 0 rfl
    rwa [aptBelowThreshold_zero, if_pos rfl] at this
  exact ⟨hu, (direction_flip_after_every_attempt "pool" true inputForcedBtoA).1
    false hu⟩

/-- Claim C5: whenever the computed `amountIn` is 0 (it can never be
negative: both branches produce a non-negative integer), the iteration
takes the skip branch — outcome Skipped, `executeTappSwap` (quote,
payload, submission) never invoked, no payload built, and the direction
still flips to the complement of the used one; and every pass through the
loop body, the skip branch included, increments `totalAttempts` by one,
so the attempt counts toward the target. -/
theorem skip_branch_behavior (p : String) (dir : Bool) (inp : IterInput) :
    ((loopIteration p dir inp).amountIn = some 0 →
      (loopIteration p dir inp).outcome = .skipped ∧
      (loopIteration p dir inp).swapCalled = false ∧
      (loopIteration p dir inp).payload = none ∧
      ∃ d, (loopIteration p dir inp).usedDir = some d ∧
        (loopIteration p dir inp).nextDir = !d) ∧
    ∀ (env : Nat → IterInput) (s : RunState),
      (stepRun p env s).totalAttempts = s.totalAttempts + 1 := by
  refine ⟨fun h => ?_, fun env s => stepRun_totalAttempts p env s⟩
  obtain ⟨aq, kc, q, tx⟩ := inp
  cases aq with
  | error e => simp [loopIteration] at h
  | ok a =>
    simp only [loopIteration] at h ⊢
    repeat' split at h
    all_goals repeat' split
    all_goals simp_all

/-- Claim C5 witness: with direction AtoB and an APT balance of exactly
the 5-APT reserve, `amountIn = 0` and the attempt is skipped with no
transaction built. -/
theorem skip_branch_behavior_witness :
    (loopIteration "pool" true inputSkipAtReserve).amountIn = some 0 ∧
    (loopIteration "pool" true inputSkipAtReserve).outcome = .skipped ∧
    (loopIteration "pool" true inputSkipAtReserve).swapCalled = false := by
  have h0 : (loopIteration "pool" true inputSkipAtReserve).amountIn = some 0 := by
    simp [loopIteration, inputSkipAtReserve, aptBelowThreshold_5e8,
      APT_MIN_UNIT_TO_KEEP, KEEP_APT_AMOUNT_FOR_SWAP, DECIMALS]
  have h := (skip_branch_behavior "pool" true inputSkipAtReserve).1 h0
  exact ⟨h0, h.1, h.2.1⟩

/-- Claim C2 counterexample: with both required settings absent, `main`
notifies and prints and never starts the loop — but it returns normally,
so the process exit code is 0, not non-zero as the claim states. -/
theorem configError_nonzero_exit_cex :
    (main none none 50 (fun _ => inputSkipAtReserve)).configErrorNotified = true ∧
    (main none none 50 (fun _ => inputSkipAtReserve)).loopStarted = false ∧
    (main none none 50 (fun _ => inputSkipAtReserve)).exitCode = 0 := by
  refine ⟨rfl, rfl, rfl⟩

/-- Claim C2 as amended: if the signing credential or the pool identifier
is absent (or empty) at startup, the run halts before any swap attempt,
the error is reported via the notifier and the console — but `main` just
returns, so the process exits normally with code 0 rather than a non-zero
code. -/
theorem configError_halts_before_loop (pk pool : Option String) (N : Nat)
    (env : Nat → IterInput)
    (h : jsTruthy pk = false ∨ jsTruthy pool = false) :
    main pk pool N env =
      { configErrorNotified := true, consoleErrored := true
        loopStarted := false, exitCode := 0, finalState := none } := by
  rcases h with h | h <;> simp [main, h]

/-- Claim C2 witness: missing private key with a present pool id. -/
theorem configError_halts_before_loop_witness :
    jsTruthy none = false ∧
    main none (some "0xpool") 50 (fun _ => inputSkipAtReserve) =
      { configErrorNotified := true, consoleErrored := true
        loopStarted := false, exitCode := 0, finalState := none } :=
  ⟨rfl, configError_halts_before_loop none (some "0xpool") 50
    (fun _ => inputSkipAtReserve) (Or.inl rfl)⟩

/-- Claim C3 counterexample: stored direction AtoB (`true`), APT balance
0 forces BtoA for the attempt, the attempt succeeds — and the stored
direction afterwards is AtoB (`true`), the complement of the forced
direction, not the complement of the pre-override stored direction
(which would be BtoA, `false`).  The override therefore does advance the
alternating state. -/
theorem forced_direction_cex :
    (loopIteration "pool" true inputForcedBtoA).usedDir = some false ∧
    (loopIteration "pool" true inputForcedBtoA).outcome = .success ∧
    (loopIteration "pool" true inputForcedBtoA).nextDir = true ∧
    (loopIteration "pool" true inputForcedBtoA).nextDir ≠ !true := by
  refine ⟨?_, ?_, ?_, ?_⟩ <;>
    simp [loopIteration, inputForcedBtoA, aptBelowThreshold_zero,
      getCoinBalanceInUnits, executeTappSwap]

/-- Claim C3 as amended: the threshold override is an assignment to the
stored direction, so it does advance the alternating state: after a
forced-BtoA attempt (any outcome), the direction inherited by the next
attempt's resolution step is AtoB — the complement of the forced
direction — regardless of the direction that was stored before the
override. -/
theorem forced_direction_overwrites_state (p : String) (dir : Bool)
    (inp : IterInput) (a : Nat) (h : inp.aptQuery = .ok a)
    (hb : aptBelowThreshold a = true) :
    (loopIteration p dir inp).usedDir = some false ∧
    (loopIteration p dir inp).nextDir = true := by
  have hu := loopIteration_usedDir p dir inp a h
  rw [hb, if_pos rfl] at hu
  have hf := (loopIteration_flip p dir inp).1 false hu
  exact ⟨hu, by simpa using hf⟩

/-- Claim C3 witness: the forced attempt at APT balance 0, inherited
direction AtoB. -/
theorem forced_direction_overwrites_state_witness :
    inputForcedBtoA.aptQuery = .ok 0 ∧ aptBelowThreshold 0 = true ∧
    (loopIteration "pool" true inputForcedBtoA).usedDir = some false ∧
    (loopIteration "pool" true inputForcedBtoA).nextDir = true :=
  ⟨rfl, aptBelowThreshold_zero,
    forced_direction_overwrites_state "pool" true inputForcedBtoA 0 rfl
      aptBelowThreshold_zero⟩

/-- Claim C4 counterexample: an `amountIn = 0` attempt is recorded as
skipped and `continue`s before the sleep statement, so it does not wait
the inter-iteration delay. -/
theorem skipped_attempt_no_sleep_cex :
    (loopIteration "pool" true inputSkipAtReserve).outcome = .skipped ∧
    (loopIteration "pool" true inputSkipAtReserve).slept = false := by
  constructor <;>
    simp [loopIteration, inputSkipAtReserve, aptBelowThreshold_5e8,
      APT_MIN_UNIT_TO_KEEP, KEEP_APT_AMOUNT_FOR_SWAP, DECIMALS]

/-- Claim C4 as amended: after a Success or Failure attempt the
controller sleeps the fixed inter-iteration delay before the next
iteration; a skipped attempt (`amountIn <= 0`) continues immediately and
bypasses the delay. -/
theorem sleep_after_non_skipped_attempts (p : String) (dir : Bool)
    (inp : IterInput) :
    ((loopIteration p dir inp).outcome ≠ .skipped →
      (loopIteration p dir inp).slept = true) ∧
    ((loopIteration p dir inp).outcome = .skipped →
      (loopIteration p dir inp).slept = false) := by
  obtain ⟨aq, kc, q, tx⟩ := inp
  cases aq with
  | error e => simp [loopIteration]
  | ok a =>
    constructor <;>
      · simp only [loopIteration]
        repeat' split
        all_goals simp_all

/-- Claim C4 witness: a successful attempt sleeps, a skipped attempt does
not. -/
theorem sleep_after_non_skipped_attempts_witness :
    (loopIteration "pool" true inputForcedBtoA).slept = true ∧
    (loopIteration "pool" true inputSkipAtReserve).slept = false := by
  constructor
  · exact (sleep_after_non_skipped_attempts "pool" true inputForcedBtoA).1
      (by simp [loopIteration, inputForcedBtoA, aptBelowThreshold_zero,
        getCoinBalanceInUnits, executeTappSwap])
  · exact (sleep_after_non_skipped_attempts "pool" true inputSkipAtReserve).2
      (by simp [loopIteration, inputSkipAtReserve, aptBelowThreshold_5e8,
        APT_MIN_UNIT_TO_KEEP, KEEP_APT_AMOUNT_FOR_SWAP, DECIMALS])

/-- Claim C6 counterexample: the controller's own APT balance query
(`aptos.getAccountAPTAmount`, swap_executor.ts:169) is not routed through
the read helper; when it throws, the loop's catch records a Failure — a
failed balance query that surfaces as a Failure outcome, contrary to the
claim. -/
theorem balance_query_failure_cex :
    (loopIteration "pool" true inputAptQueryFails).outcome = .failure := by
  simp [loopIteration, inputAptQueryFails]

/-- Claim C6 as amended: every failure of a balance query made through
`getCoinBalanceInUnits` is treated as a zero balance and never surfaced
as an exception, so in the BtoA direction a failed kAPT read yields a
Skipped attempt (no crash); but the direct APT balance query in the
controller is not protected by the helper, and its failure is caught by
the loop and recorded as a Failure outcome. -/
theorem helper_balance_failure_fail_safe :
    (∀ (t : String), getCoinBalanceInUnits (.error ()) t = 0) ∧
    (∀ (p : String) (dir : Bool) (inp : IterInput) (a : Nat),
      inp.aptQuery = .ok a → inp.kaptCoins = .error () →
      (if aptBelowThreshold a then false else dir) = false →
      (loopIteration p dir inp).outcome = .skipped ∧
      (loopIteration p dir inp).swapCalled = false) ∧
    (∀ (p : String) (dir : Bool) (inp : IterInput),
      inp.aptQuery = .error () →
      (loopIteration p dir inp).outcome = .failure) := by
  refine ⟨fun t => rfl, ?_, ?_⟩
  · intro p dir inp a ha hk hd
    obtain ⟨aq, kc, q, tx⟩ := inp
    simp only at ha hk
    subst ha
    subst hk
    simp only [loopIteration, hd, getCoinBalanceInUnits]
    simp
  · intro p dir inp ha
    obtain ⟨aq, kc, q, tx⟩ := inp
    simp only at ha
    subst ha
    simp [loopIteration]

/-- Claim C6 witness: APT balance 0 forces BtoA, the kAPT coin query
throws, and the attempt is skipped; the direct APT query throwing gives a
Failure. -/
theorem helper_balance_failure_fail_safe_witness :
    getCoinBalanceInUnits (.error ()) KAPT_COIN_TYPE = 0 ∧
    (loopIteration "pool" true inputKaptReadFails).outcome = .skipped ∧
    (loopIteration "pool" true inputAptQueryFails).outcome = .failure := by
  refine ⟨helper_balance_failure_fail_safe.1 KAPT_COIN_TYPE, ?_, ?_⟩
  · exact (helper_balance_failure_fail_safe.2.1 "pool" true inputKaptReadFails 0
      rfl rfl (by rw [aptBelowThreshold_zero]; simp)).1
  · exact helper_balance_failure_fail_safe.2.2 "pool" true inputAptQueryFails rfl

/-- The try/catch pattern of `sendNotification`: whatever the dispatched
sender does, the caught result is always `ok`. -/
lemma notifyCatch_ok (e : Except String Unit) :
    ∃ r : NotifyResult,
      (match Except.map (fun _ => NotifyResult.delivered) e with
       | Except.ok r => Except.ok r
       | Except.error er => Except.ok (NotifyResult.caughtAndLogged er)) =
        (Except.ok r : Except String NotifyResult) := by
  cases e <;> exact ⟨_, rfl⟩

/-- Claim C8: whenever `executeTappSwap` obtains a quote, the payload it
builds carries `minAmountOut = floor(estimatedAmountOut * (1 - slippage))`
(for any slippage, in particular the configured `SLIPPAGE`); every payload
observed by the loop satisfies the formula with `SLIPPAGE`; and at the
spec's example, quoted output 1,000,000 with slippage 0.005 gives
995,000. -/
theorem minAmountOut_slippage_formula :
    (∀ (p : String) (amt : Nat) (slip : ℚ) (ft : Bool) (est : Nat) (tx : Bool),
      (executeTappSwap p amt slip ft (.ok est) tx).payload.map
        (fun pl => pl.minAmountOut) = some ⌊(est : ℚ) * (1 - slip)⌋) ∧
    (∀ (p : String) (dir : Bool) (inp : IterInput) (pl : SwapPayload),
      (loopIteration p dir inp).payload = some pl →
      ∃ est, inp.quote = .ok est ∧
        pl.minAmountOut = ⌊(est : ℚ) * (1 - SLIPPAGE)⌋) ∧
    (⌊(1000000 : ℚ) * (1 - SLIPPAGE)⌋ : Int) = 995000 := by
  refine ⟨fun p amt slip ft est tx => rfl, ?_, by norm_num [SLIPPAGE]⟩
  intro p dir inp pl h
  obtain ⟨aq, kc, q, tx⟩ := inp
  cases aq with
  | error e => simp [loopIteration] at h
  | ok a =>
    cases q with
    | error e =>
      simp only [loopIteration] at h
      repeat' split at h
      all_goals simp_all [executeTappSwap]
    | ok est =>
      refine ⟨est, rfl, ?_⟩
      simp only [loopIteration] at h
      repeat' split at h
      all_goals simp_all [executeTappSwap]
      all_goals rw [← h]

/-- Claim C8 witness: an AtoB attempt with 10 APT of balance and a quoted
output of 1,000,000 builds a payload whose minimum output is 995,000. -/
theorem minAmountOut_slippage_formula_witness :
    ∃ pl, (loopIteration "pool" true inputQuoteMillion).payload = some pl ∧
      pl.minAmountOut = 995000 := by
  have hex : ∃ pl, (loopIteration "pool" true inputQuoteMillion).payload =
      some pl := by
    simp [loopIteration, inputQuoteMillion, aptBelowThreshold_10e8,
      executeTappSwap, APT_MIN_UNIT_TO_KEEP, KEEP_APT_AMOUNT_FOR_SWAP, DECIMALS]
  obtain ⟨pl, hp⟩ := hex
  obtain ⟨est, hq, hm⟩ := minAmountOut_slippage_formula.2.1 "pool" true
    inputQuoteMillion pl hp
  have hq2 : (Except.ok 1000000 : Except Unit Nat) = .ok est := hq
  have hest : est = 1000000 := (Except.ok.inj hq2).symm
  subst hest
  exact ⟨pl, hp, by rw [hm]; exact minAmountOut_slippage_formula.2.2⟩

/-- Claim C9: for every notification environment (any selector value,
present or missing credentials) and whether or not the delivery call
fails, `sendNotification` returns normally: delivery failures are caught
and logged inside the notifier and never escape to the caller. -/
theorem sendNotification_never_throws (env : NotifyEnv) (fetchFails : Bool) :
    ∃ r, sendNotification env fetchFails = .ok r := by
  unfold sendNotification
  repeat' split
  all_goals first
    | exact ⟨_, rfl⟩
    | exact notifyCatch_ok _

/-- Claim C10: `getCoinBalanceInUnits` returns 0 when the query throws,
when the query succeeds but holds no entry for the requested coin type,
and when the entry exists with amount 0 — and in the BtoA direction any
of these zero results makes the controller compute `amountIn = 0` and
skip the attempt, so the three situations are indistinguishable to the
controller. -/
theorem balance_read_zero_indistinguishable :
    (∀ (t : String), getCoinBalanceInUnits (.error ()) t = 0) ∧
    (∀ (t : String) (coins : List CoinData),
      (∀ c ∈ coins, c.asset_type ≠ t) →
      getCoinBalanceInUnits (.ok coins) t = 0) ∧
    (∀ (t : String) (rest : List CoinData),
      getCoinBalanceInUnits (.ok (⟨t, 0⟩ :: rest)) t = 0) ∧
    (∀ (p : String) (dir : Bool) (inp : IterInput) (a : Nat),
      inp.aptQuery = .ok a →
      (if aptBelowThreshold a then false else dir) = false →
      getCoinBalanceInUnits inp.kaptCoins KAPT_COIN_TYPE = 0 →
      (loopIteration p dir inp).outcome = .skipped ∧
      (loopIteration p dir inp).amountIn = some 0 ∧
      (loopIteration p dir inp).swapCalled = false) := by
  refine ⟨fun t => rfl, ?_, ?_, ?_⟩
  · intro t coins hne
    simp only [getCoinBalanceInUnits]
    cases hf : coins.find? (fun coin => coin.asset_type = t) with
    | none => rfl
    | some c =>
      have hc := List.find?_some hf
      have hmem := List.mem_of_find?_eq_some hf
      simp only [decide_eq_true_eq] at hc
      exact absurd hc (hne c hmem)
  · intro t rest
    simp [getCoinBalanceInUnits, List.find?]
  · intro p dir inp a ha hd hz
    obtain ⟨aq, kc, q, tx⟩ := inp
    simp only at ha hz
    subst ha
    simp only [loopIteration, hd, hz]
    simp

/-- Claim C10 witness: with the override forcing BtoA, the three
scenarios — kAPT query throws, account has no kAPT record, kAPT record
present with amount 0 — all produce a skipped attempt with
`amountIn = 0`. -/
theorem balance_read_zero_indistinguishable_witness :
    (loopIteration "pool" true inputKaptReadFails).outcome = .skipped ∧
    (loopIteration "pool" true inputKaptNoEntry).outcome = .skipped ∧
    (loopIteration "pool" true inputKaptZeroEntry).outcome = .skipped := by
  have hd : (if aptBelowThreshold 0 then false else true) = false := by
    rw [aptBelowThreshold_zero]; simp
  refine ⟨?_, ?_, ?_⟩
  · exact (balance_read_zero_indistinguishable.2.2.2 "pool" true
      inputKaptReadFails 0 rfl hd rfl).1
  · exact (balance_read_zero_indistinguishable.2.2.2 "pool" true
      inputKaptNoEntry 0 rfl hd (by decide)).1
  · exact (balance_read_zero_indistinguishable.2.2.2 "pool" true
      inputKaptZeroEntry 0 rfl hd (by decide)).1

end SwapBot
